import Mathlib

/-!
Verification of the notification multiplexer, sequence bookkeeping and
connection lifecycle of the IMAP connection engine
(`imap-core/lib/imap-connection.js`), as a shallow embedding in Lean.

UIDs, sequence numbers and modseq values are modelled as `Nat`; session
ids and IMAP command names as `String` (the source compares them with
`===`).  The mutable connection object is threaded explicitly: each
embedded operation takes the relevant state and returns the updated
state together with the list of response records written to the client
in the order they were written.
-/

namespace WildDuck

/-- A notifier update record `{command, uid, modseq, flags?, ignore?}`
(spec "Update Record"; consumed by `emitNotifications`).  `flags = none`
models an absent (`undefined`) `flags` field, `ignore = none` an absent
`ignore` field. -/
structure Update where
  command : String
  uid : Nat
  modseq : Nat
  flags : Option (List String) := none
  ignore : Option String := none
deriving Repr, DecidableEq

/-- A node of the attribute tree of a response record: the source builds
plain `{type:'ATOM'|'atom', value}` objects and nested arrays.  Case of
the JS `type` tag is irrelevant to the composer, so both map to `atom`. -/
inductive Attr where
  | atom (value : String)
  | list (items : List Attr)

/-- A structured response record `{tag, command, attributes}` as passed
to `this.writeStream.write` (source `formatResponse` return value and the
synthesized EXISTS literal at lines 591-602). -/
structure IMAPResponse where
  tag : String
  command : String
  attributes : List Attr

/-- The `data` argument `formatResponse` receives from the FETCH branch of
`emitNotifications`: `{flags: update.flags, modseq: (condstoreEnabled &&
update.modseq) || false}`.  `modseq = none` models the JS value `false`
(or `0`, which is falsy and skipped identically). -/
structure NotifyData where
  flags : Option (List String)
  modseq : Option Nat

/-- The selected-mailbox snapshot `this.selected`: mailbox handle,
`uidList`, `modifyIndex`, `condstoreEnabled` and the pending
`notifications` queue. -/
structure SelectedBox where
  mailbox : String
  uidList : List Nat
  modifyIndex : Nat
  condstoreEnabled : Bool
  notifications : List Update

/-- The slice of the connection object that the notification paths read
and write: session id, IMAP state string, selected snapshot and the
`idling` flag. -/
structure Conn where
  id : String
  state : String
  selected : Option SelectedBox
  idling : Bool

/-- `command.toUpperCase()` for the ASCII command names used by the
source (`String.prototype.toUpperCase`). -/
def strToUpper (s : String) : String :=
  ⟨s.data.map Char.toUpper⟩

/-- `Array.prototype.indexOf`, returning `none` where JS returns `-1`. -/
def idxOf? (uid : Nat) : List Nat → Option Nat
  | [] => none
  | x :: xs => if x = uid then some 0 else (idxOf? uid xs).map (· + 1)

/-- The attribute list built from a notification `data` object
(`formatResponse`, `Object.keys(data).forEach` branch): keys in insertion
order (`FLAGS` then `MODSEQ`), falsy values skipped, flags wrapped as
atoms, the modseq atom wrapped in a one-element list by `[].concat`. -/
def notifyAttrs (d : NotifyData) : List Attr :=
  (match d.flags with
    | none => []
    | some fl => [Attr.atom "FLAGS", Attr.list (fl.map Attr.atom)]) ++
  (match d.modseq with
    | none => []
    | some m =>
        if m = 0 then []
        else [Attr.atom "MODSEQ", Attr.list [Attr.atom (toString m)]])

/-- The response record `formatResponse` assembles once the sequence
number is known: `{tag:'*', command:String(seq), attributes:[atom cmd]}`,
with the data attributes appended as a nested list when present. -/
def mkResp (seq : Nat) (command : String) (data : Option NotifyData) : IMAPResponse :=
  { tag := "*"
    command := toString seq
    attributes := [Attr.atom command] ++
      (match data with
        | none => []
        | some d => [Attr.list (notifyAttrs d)]) }

/-- `formatResponse(command, uid, data)` (source lines 612-741), restricted
to the notification-shaped `data` (the `query` branch serves FETCH command
handlers, which no claim touches).  EXISTS pushes the uid and answers with
the new length; other commands locate the uid and answer `index+1`,
returning `false` (here `none`) when absent; EXPUNGE additionally splices
the located entry out of `uidList`. -/
def formatResponse (sel : SelectedBox) (command0 : String) (uid : Nat)
    (data : Option NotifyData) : Option IMAPResponse × SelectedBox :=
  let command := strToUpper command0
  if command = "EXISTS" then
    let ul := sel.uidList ++ [uid]
    (some (mkResp ul.length command data), { sel with uidList := ul })
  else
    match idxOf? uid sel.uidList with
    | none => (none, sel)
    | some i =>
      let seq := i + 1
      let sel' :=
        if command = "EXPUNGE" then { sel with uidList := sel.uidList.eraseIdx (seq - 1) }
        else sel
      (some (mkResp seq command data), sel')

/-- Modelled from the spec: `this.writeStream` is an `IMAPComposer`
(`imap-core/lib/imap-composer.js`), which is not under src/.  Spec §4.3:
a record whose uid cannot be located "is dropped" and produces no output,
so writing the `false` that `formatResponse` returns in that case (`none`
here) emits nothing; a real response record is emitted as is. -/
def writeMaybe : Option IMAPResponse → List IMAPResponse
  | none => []
  | some r => [r]

/-- The loop state of the walk over surviving notifications in
`emitNotifications`: the selected snapshot, the responses written so far,
the `changed` flag and the deferred `existsResponse`. -/
structure Walk where
  sel : SelectedBox
  writes : List IMAPResponse
  changed : Bool
  existsResponse : Option IMAPResponse

/-- One iteration of the walk (source lines 509-583): skip uids expunged
before ever seen, advance `modifyIndex`, suppress the session's own echo,
then dispatch on the command: EXISTS defers its formatted response and
clears `changed`; EXPUNGE (when the uid is present) writes immediately and
sets `changed`; FETCH writes immediately with the condstore-gated modseq. -/
def walkStep (id : String) (skip : List Nat) (st : Walk) (update : Update) : Walk :=
  if update.uid ∈ skip then st
  else
    let sel0 :=
      if update.modseq > st.sel.modifyIndex then { st.sel with modifyIndex := update.modseq }
      else st.sel
    let st := { st with sel := sel0 }
    if update.ignore = some id then st
    else if update.command = "EXISTS" then
      let fr := formatResponse st.sel "EXISTS" update.uid none
      { st with sel := fr.2, existsResponse := fr.1, changed := false }
    else if update.command = "EXPUNGE" then
      match idxOf? update.uid st.sel.uidList with
      | some _ =>
        let fr := formatResponse st.sel "EXPUNGE" update.uid none
        { st with sel := fr.2, writes := st.writes ++ writeMaybe fr.1, changed := true }
      | none => st
    else if update.command = "FETCH" then
      let data : NotifyData :=
        { flags := update.flags
          modseq :=
            if st.sel.condstoreEnabled ∧ update.modseq ≠ 0 then some update.modseq else none }
      let fr := formatResponse st.sel "FETCH" update.uid (some data)
      { st with sel := fr.2, writes := st.writes ++ writeMaybe fr.1 }
    else st

/-- The FETCH-coalescing pass (source lines 495-507): scan right to left,
keep only the last FETCH per uid and drop FETCHes for uids that also have
an EXISTS or EXPUNGE in the flush.  Returns the surviving list and the
`fetches` set (as the list of kept FETCH uids). -/
def coalesce (added removed : List Nat) : List Update → List Update × List Nat
  | [] => ([], [])
  | u :: rest =>
    let pr := coalesce added removed rest
    if u.command = "FETCH" then
      if u.uid ∈ pr.2 ∨ u.uid ∈ added ∨ u.uid ∈ removed then pr
      else (u :: pr.1, u.uid :: pr.2)
    else (u :: pr.1, pr.2)

/-- The synthesized `* <N> EXISTS` literal written when `changed` is still
set after the walk (source lines 591-602): it goes straight to the write
stream and bypasses `formatResponse`, so it does not touch `uidList`. -/
def synthExists (n : Nat) : IMAPResponse :=
  { tag := "*", command := toString n, attributes := [Attr.atom "EXISTS"] }

/-- `emitNotifications()` (source lines 456-610): no-op unless the state
is Selected with a nonempty queue; computes `added`, `removed` and `skip`,
coalesces FETCHes, walks the survivors, then flushes the deferred EXISTS
(or synthesizes a fresh one when an EXPUNGE happened after it) and clears
the queue.  Returns the updated connection and the written responses. -/
def emitNotifications (conn : Conn) : Conn × List IMAPResponse :=
  match conn.selected with
  | none => (conn, [])
  | some sel =>
    if conn.state ≠ "Selected" ∨ sel.notifications = [] then (conn, [])
    else
      let added := (sel.notifications.filter (fun u => u.command = "EXISTS")).map (fun u => u.uid)
      let removed :=
        (sel.notifications.filter (fun u => u.command = "EXPUNGE")).map (fun u => u.uid)
      let skip := removed.filter (fun uid => uid ∈ added)
      let surviving := (coalesce added removed sel.notifications).1
      let final := surviving.foldl (walkStep conn.id skip)
        { sel := sel, writes := [], changed := false, existsResponse := none }
      let writes :=
        if final.changed then final.writes ++ [synthExists final.sel.uidList.length]
        else
          match final.existsResponse with
          | some r => final.writes ++ [r]
          | none => final.writes
      ({ conn with selected := some { final.sel with notifications := [] } }, writes)

/-- The `uidList` of the selected snapshot, `[]` when nothing is selected. -/
def uidListOf (c : Conn) : List Nat :=
  match c.selected with
  | none => []
  | some s => s.uidList

/-- The `modifyIndex` of the selected snapshot, `0` when nothing is selected. -/
def modIndexOf (c : Conn) : Nat :=
  match c.selected with
  | none => 0
  | some s => s.modifyIndex

/-- The pending notification queue, `[]` when nothing is selected. -/
def notifsOf (c : Conn) : List Update :=
  match c.selected with
  | none => []
  | some s => s.notifications

/-- The mutable listener record created by `updateNotificationListener`:
the mailbox it is keyed on, the reentrancy `lock`, and whether `clear()`
has run (the `cleared` closure variable). -/
structure ListenerData where
  mailbox : String
  lock : Bool
  cleared : Bool

/-- The completion of `this._server.notifier.getUpdates` inside the
notification listener callback (source lines 404-446): ignore everything
if cleared, release the lock, bail out on error or when no longer
Selected (clearing the listener) or when there are no updates; otherwise
advance `modifyIndex` to the last update's modseq when larger, append the
updates to the queue and, when idling, flush immediately.  Returns the
connection, the listener record and the responses written. -/
def getUpdatesResult (conn : Conn) (ld : ListenerData)
    (res : Except String (List Update)) : Conn × ListenerData × List IMAPResponse :=
  if ld.cleared then (conn, ld, [])
  else
    let ld := { ld with lock := false }
    match res with
    | .error _ => (conn, ld, [])
    | .ok updates =>
      if conn.state ≠ "Selected" ∨ conn.selected.isNone then
        (conn, { ld with cleared := true }, [])
      else
        match conn.selected with
        | none => (conn, { ld with cleared := true }, [])
        | some sel =>
          match updates.getLast? with
          | none => (conn, ld, [])
          | some last =>
            let sel :=
              if last.modseq > sel.modifyIndex then { sel with modifyIndex := last.modseq }
              else sel
            let sel := { sel with notifications := sel.notifications ++ updates }
            let conn := { conn with selected := some sel }
            if conn.idling then
              let pr := emitNotifications conn
              (pr.1, ld, pr.2)
            else (conn, ld, [])

/-- One logical frame handed to `_onCommand` by the parser: its payload
and the `final` flag (`false` while literal continuations follow). -/
structure Frame where
  payload : String
  final : Bool

/-- What `_onCommand` did with a frame: dropped it (TLS upgrade in
progress), appended it to the pending multi-part command, or closed the
command and dispatched it for execution. -/
inductive CmdAction where
  | ignored
  | appended
  | dispatched (parts : List String)

/-- The slice of the connection `_onCommand` touches: the `_upgrading`
flag and the accumulated `_currentCommand` parts. -/
structure CmdConn where
  upgrading : Bool
  currentCommand : Option (List String)

/-- `_onCommand(command, callback)` (source lines 301-321): while
`_upgrading` every frame is dropped (`return callback()`); otherwise the
frame joins the current command, which is dispatched when final. -/
def onCommand (conn : CmdConn) (frame : Frame) : CmdConn × CmdAction :=
  if conn.upgrading then (conn, CmdAction.ignored)
  else
    let cur := conn.currentCommand.getD []
    if frame.final then
      ({ conn with currentCommand := none }, CmdAction.dispatched (cur ++ [frame.payload]))
    else
      ({ conn with currentCommand := some (cur ++ [frame.payload]) }, CmdAction.appended)

/-- Modelled from the spec: the STARTTLS upgrade handler is not under
src/.  Spec §3 invariant "While `upgrading` is true no client bytes
beyond the upgrade command are consumed": while upgrading, inbound bytes
stay in the transport buffer and none are consumed into the parser. -/
def ingestBytes (upgrading : Bool) (consumed incoming : List Nat) : List Nat :=
  if upgrading then consumed else consumed ++ incoming

/-- The socket state `close` reads: `destroyed`, `writable` and how many
times `socket.end()` has been called (after `end()` the socket is no
longer writable). -/
structure SocketState where
  destroyed : Bool
  writable : Bool
  endCalls : Nat

/-- `socket.end()`: the socket stops being writable; count the call. -/
def socketEnd (s : SocketState) : SocketState :=
  { s with writable := false, endCalls := s.endCalls + 1 }

/-- The slice of the connection touched by `close()` and `_onClose()`:
the socket, membership in `server.connections`, the `_closing`/`_closed`
flags, and the resources `_onClose` releases.  `cleanupRuns` counts how
often the body of `_onClose` past the `_closed` guard has executed. -/
structure CloseConn where
  socket : SocketState
  inRegistry : Bool
  closing : Bool
  closed : Bool
  state : String
  parserActive : Bool
  dataStream : Bool
  deflate : Bool
  inflate : Bool
  listenerData : Bool
  cleanupRuns : Nat

/-- `close()` (source lines 156-164): end the socket if it is still
writable and not destroyed, remove the connection from the registry, set
`_closing`. -/
def close (c : CloseConn) : CloseConn :=
  let c :=
    if ¬c.socket.destroyed ∧ c.socket.writable then { c with socket := socketEnd c.socket }
    else c
  { c with inRegistry := false, closing := true }

/-- `_onClose()` (source lines 201-245): return immediately when already
`_closed`; otherwise drop the parser, enter the Closed state, release the
data stream, deflate, inflate and listener, leave the registry, and set
`_closed` (clearing `_closing`). -/
def onClose (c : CloseConn) : CloseConn :=
  if c.closed then c
  else
    { c with
        parserActive := false
        state := "Closed"
        dataStream := false
        deflate := false
        inflate := false
        listenerData := false
        inRegistry := false
        closed := true
        closing := false
        cleanupRuns := c.cleanupRuns + 1 }

/-! ### Basic facts about the embedded operations -/

theorem strToUpper_EXISTS : strToUpper "EXISTS" = "EXISTS" := by decide

theorem strToUpper_EXPUNGE : strToUpper "EXPUNGE" = "EXPUNGE" := by decide

theorem strToUpper_FETCH : strToUpper "FETCH" = "FETCH" := by decide

theorem ne_EXPUNGE_EXISTS : "EXPUNGE" ≠ "EXISTS" := by decide

theorem ne_FETCH_EXISTS : "FETCH" ≠ "EXISTS" := by decide

theorem ne_EXISTS_FETCH : "EXISTS" ≠ "FETCH" := by decide

theorem ne_EXPUNGE_FETCH : "EXPUNGE" ≠ "FETCH" := by decide

theorem ne_EXISTS_EXPUNGE : "EXISTS" ≠ "EXPUNGE" := by decide

theorem ne_FETCH_EXPUNGE : "FETCH" ≠ "EXPUNGE" := by decide

theorem idxOf?_eq_none (u : Nat) (l : List Nat) (h : u ∉ l) : idxOf? u l = none := by
  induction l with
  | nil => rfl
  | cons x xs ih =>
    have hx : x ≠ u := fun hq => h (hq ▸ List.mem_cons_self x xs)
    have hu : u ∉ xs := fun hq => h (List.mem_cons_of_mem x hq)
    simp [idxOf?, hx, ih hu]

theorem idxOf?_lt_length (u : Nat) (l : List Nat) (i : Nat) (h : idxOf? u l = some i) :
    i < l.length := by
  induction l generalizing i with
  | nil => simp [idxOf?] at h
  | cons x xs ih =>
    by_cases hx : x = u
    · simp [idxOf?, hx] at h
      simp [← h]
    · simp only [idxOf?, hx, if_false] at h
      match hq : idxOf? u xs with
      | none => rw [hq] at h; simp at h
      | some j =>
        rw [hq] at h
        simp at h
        have := ih j hq
        simp [← h, List.length_cons]
        omega

theorem idxOf?_mem (u : Nat) (l : List Nat) (i : Nat) (h : idxOf? u l = some i) : u ∈ l := by
  by_contra hu
  rw [idxOf?_eq_none u l hu] at h
  cases h

theorem idxOf?_append_of_mem (u : Nat) (l l' : List Nat) (h : u ∈ l) :
    idxOf? u (l ++ l') = idxOf? u l := by
  induction l with
  | nil => cases h
  | cons x xs ih =>
    by_cases hx : x = u
    · simp [idxOf?, hx]
    · have hu : u ∈ xs := by
        cases h with
        | head => exact absurd rfl hx
        | tail _ hq => exact hq
      simp [idxOf?, hx, ih hu]

theorem formatResponse_modifyIndex (sel : SelectedBox) (c : String) (u : Nat)
    (d : Option NotifyData) : ((formatResponse sel c u d).2).modifyIndex = sel.modifyIndex := by
  unfold formatResponse
  dsimp only
  split
  · rfl
  · split
    · rfl
    · dsimp only
      split <;> rfl

theorem coalesce_no_fetch (added removed : List Nat) (l : List Update)
    (h : ∀ u ∈ l, u.command ≠ "FETCH") : coalesce added removed l = (l, []) := by
  induction l with
  | nil => rfl
  | cons u rest ih =>
    have hu := h u (List.mem_cons_self u rest)
    have hrest : ∀ v ∈ rest, v.command ≠ "FETCH" :=
      fun v hv => h v (List.mem_cons_of_mem u hv)
    simp [coalesce, hu, ih hrest]

/-! ### C3: a uid both added and expunged in one flush is invisible -/

/-- Claim C3: a flush of `EXISTS(u), EXPUNGE(u)` for the same uid `u`
produces no output at all and leaves the selected snapshot untouched
except for clearing the queue — the uid is never appended to `uidList`
and `modifyIndex` is not advanced for the skipped records. -/
theorem exists_expunge_same_uid_noop (conn : Conn) (sel : SelectedBox)
    (u m1 m2 : Nat) (f1 f2 : Option (List String)) (g1 g2 : Option String)
    (hsel : conn.selected = some sel) (hstate : conn.state = "Selected")
    (hn : sel.notifications =
      [{ command := "EXISTS", uid := u, modseq := m1, flags := f1, ignore := g1 },
       { command := "EXPUNGE", uid := u, modseq := m2, flags := f2, ignore := g2 }]) :
    emitNotifications conn =
      ({ conn with selected := some { sel with notifications := [] } }, []) := by
  simp only [emitNotifications, hsel]
  rw [if_neg (by simp [hstate, hn])]
  rw [coalesce_no_fetch _ _ _ (by
    intro v hv
    rw [hn] at hv
    simp only [List.mem_cons, List.not_mem_nil, or_false] at hv
    rcases hv with hv | hv <;>
      simp [hv, ne_EXISTS_FETCH, ne_EXPUNGE_FETCH])]
  simp [hn, walkStep, ne_EXPUNGE_EXISTS, ne_EXISTS_FETCH, ne_EXPUNGE_FETCH]

/-- Concrete instance of `exists_expunge_same_uid_noop`: `uid_list=[10]`,
updates `EXISTS(11), EXPUNGE(11)` — no output, `uid_list` stays `[10]`. -/
theorem exists_expunge_same_uid_noop_witness :
    ({ id := "S", state := "Selected",
       selected := some
         { mailbox := "INBOX", uidList := [10], modifyIndex := 50, condstoreEnabled := false,
           notifications :=
             [{ command := "EXISTS", uid := 11, modseq := 100 },
              { command := "EXPUNGE", uid := 11, modseq := 101 }] },
       idling := true } : Conn).selected = some
         { mailbox := "INBOX", uidList := [10], modifyIndex := 50, condstoreEnabled := false,
           notifications :=
             [{ command := "EXISTS", uid := 11, modseq := 100 },
              { command := "EXPUNGE", uid := 11, modseq := 101 }] } ∧
    emitNotifications
        { id := "S", state := "Selected",
          selected := some
            { mailbox := "INBOX", uidList := [10], modifyIndex := 50, condstoreEnabled := false,
              notifications :=
                [{ command := "EXISTS", uid := 11, modseq := 100 },
                 { command := "EXPUNGE", uid := 11, modseq := 101 }] },
          idling := true } =
      ({ id := "S", state := "Selected",
         selected := some
           { mailbox := "INBOX", uidList := [10], modifyIndex := 50, condstoreEnabled := false,
             notifications := [] },
         idling := true }, []) :=
  ⟨rfl, exists_expunge_same_uid_noop _ _ 11 100 101 none none none none rfl rfl rfl⟩

/-! ### C4: FETCH coalescing and echo suppression -/

theorem coalesce_fetch_facts (added removed : List Nat) (l : List Update) :
    ((coalesce added removed l).1.filter (fun u => u.command = "FETCH")).map
        (fun u => u.uid) = (coalesce added removed l).2 ∧
    (coalesce added removed l).2.Nodup ∧
    (∀ z ∈ (coalesce added removed l).1, z.command = "FETCH" →
      z.uid ∉ added ∧ z.uid ∉ removed) := by
  induction l with
  | nil =>
    refine ⟨rfl, List.nodup_nil, ?_⟩
    intro z hz
    cases hz
  | cons u rest ih =>
    obtain ⟨ih1, ih2, ih3⟩ := ih
    by_cases hf : u.command = "FETCH"
    · by_cases hmem : u.uid ∈ (coalesce added removed rest).2 ∨ u.uid ∈ added ∨
          u.uid ∈ removed
      · have hco : coalesce added removed (u :: rest) = coalesce added removed rest := by
          simp only [coalesce, hf, if_true]
          rw [if_pos hmem]
        rw [hco]
        exact ⟨ih1, ih2, ih3⟩
      · push_neg at hmem
        obtain ⟨hm1, hm2, hm3⟩ := hmem
        have hco : coalesce added removed (u :: rest) =
            (u :: (coalesce added removed rest).1, u.uid :: (coalesce added removed rest).2) := by
          simp only [coalesce, hf, if_true]
          rw [if_neg (by simp [hm1, hm2, hm3])]
        rw [hco]
        refine ⟨?_, ?_, ?_⟩
        · simp [hf, ih1]
        · simp only [List.nodup_cons]
          exact ⟨hm1, ih2⟩
        · intro z hz hzf
          rcases List.mem_cons.mp hz with hz | hz
          · subst hz
            exact ⟨hm2, hm3⟩
          · exact ih3 z hz hzf
    · have hco : coalesce added removed (u :: rest) =
          (u :: (coalesce added removed rest).1, (coalesce added removed rest).2) := by
        simp only [coalesce, hf, if_false]
      rw [hco]
      refine ⟨?_, ih2, ?_⟩
      · simp [hf, ih1]
      · intro z hz hzf
        rcases List.mem_cons.mp hz with hz | hz
        · subst hz
          exact absurd hzf hf
        · exact ih3 z hz hzf

theorem filter_fetch_uid_le_one (l : List Update) (w : Nat)
    (h : ((l.filter (fun u => u.command = "FETCH")).map (fun u => u.uid)).Nodup) :
    (l.filter (fun u => u.command = "FETCH" ∧ u.uid = w)).length ≤ 1 := by
  induction l with
  | nil => simp
  | cons u rest ih =>
    by_cases hf : u.command = "FETCH"
    · rw [List.filter_cons_of_pos (by simp [hf]), List.map_cons] at h
      obtain ⟨h1, h2⟩ := List.nodup_cons.mp h
      by_cases hw : u.uid = w
      · have hempty : rest.filter (fun z => z.command = "FETCH" ∧ z.uid = w) = [] := by
          rw [List.filter_eq_nil_iff]
          intro z hz hp
          rw [decide_eq_true_eq] at hp
          obtain ⟨hzf, hzw⟩ := hp
          have hzmem : z.uid ∈ (rest.filter (fun v => v.command = "FETCH")).map
              (fun v => v.uid) :=
            List.mem_map.mpr ⟨z, List.mem_filter.mpr ⟨hz, by simp [hzf]⟩, rfl⟩
          rw [hzw, ← hw] at hzmem
          exact h1 hzmem
        rw [List.filter_cons_of_pos (by simp [hf, hw]), hempty]
        simp
      · rw [List.filter_cons_of_neg (by simp [hw])]
        exact ih h2
    · rw [List.filter_cons_of_neg (by simp [hf])] at h
      rw [List.filter_cons_of_neg (by simp [hf])]
      exact ih h

/-- Claim C4: in every flush, at most one FETCH per uid survives the
coalescing pass (the right-to-left scan keeps a uid's rightmost FETCH),
FETCH updates for uids that also have an EXISTS or EXPUNGE in the same
flush are dropped, and in the spec's concrete scenario —
`uid_list=[10,11]`, session id `S`, updates `FETCH(10,[\Seen])`,
`FETCH(10,[\Seen,\Flagged],ignore=S)`, `FETCH(11,[\Answered])` — the last
FETCH for uid 10 survives yet is suppressed by `ignore`, so exactly one
untagged FETCH at sequence 2 (uid 11) is written and nothing for uid 10. -/
theorem fetch_coalescing_echo_suppression :
    (∀ added removed l w,
      ((coalesce added removed l).1.filter
          (fun u => u.command = "FETCH" ∧ u.uid = w)).length ≤ 1) ∧
    (∀ added removed l, ∀ z ∈ (coalesce added removed l).1, z.command = "FETCH" →
      z.uid ∉ added ∧ z.uid ∉ removed) ∧
    emitNotifications
      { id := "S", state := "Selected",
        selected := some
          { mailbox := "INBOX", uidList := [10, 11], modifyIndex := 50,
            condstoreEnabled := false,
            notifications :=
              [{ command := "FETCH", uid := 10, modseq := 100, flags := some ["\\Seen"] },
               { command := "FETCH", uid := 10, modseq := 101,
                 flags := some ["\\Seen", "\\Flagged"], ignore := some "S" },
               { command := "FETCH", uid := 11, modseq := 102, flags := some ["\\Answered"] }] },
        idling := true } =
      ({ id := "S", state := "Selected",
         selected := some
           { mailbox := "INBOX", uidList := [10, 11], modifyIndex := 102,
             condstoreEnabled := false, notifications := [] },
         idling := true },
       [{ tag := "*", command := "2",
          attributes := [Attr.atom "FETCH",
            Attr.list [Attr.atom "FLAGS", Attr.list [Attr.atom "\\Answered"]]] }]) := by
  refine ⟨?_, ?_, rfl⟩
  · intro added removed l w
    have hfacts := coalesce_fetch_facts added removed l
    have hnd : (((coalesce added removed l).1.filter
        (fun u => u.command = "FETCH")).map (fun u => u.uid)).Nodup := by
      rw [hfacts.1]
      exact hfacts.2.1
    exact filter_fetch_uid_le_one _ w hnd
  · intro added removed l z hz hzf
    exact (coalesce_fetch_facts added removed l).2.2 z hz hzf

/-- Concrete instance of `fetch_coalescing_echo_suppression`: the
at-most-one bound at a two-FETCH queue for the same uid, and the spec's
flush scenario. -/
theorem fetch_coalescing_echo_suppression_witness :
    ((coalesce [] []
        [{ command := "FETCH", uid := 7, modseq := 1 },
         { command := "FETCH", uid := 7, modseq := 2 }]).1.filter
        (fun u => u.command = "FETCH" ∧ u.uid = 7)).length ≤ 1 ∧
    emitNotifications
      { id := "S", state := "Selected",
        selected := some
          { mailbox := "INBOX", uidList := [10, 11], modifyIndex := 50,
            condstoreEnabled := false,
            notifications :=
              [{ command := "FETCH", uid := 10, modseq := 100, flags := some ["\\Seen"] },
               { command := "FETCH", uid := 10, modseq := 101,
                 flags := some ["\\Seen", "\\Flagged"], ignore := some "S" },
               { command := "FETCH", uid := 11, modseq := 102, flags := some ["\\Answered"] }] },
        idling := true } =
      ({ id := "S", state := "Selected",
         selected := some
           { mailbox := "INBOX", uidList := [10, 11], modifyIndex := 102,
             condstoreEnabled := false, notifications := [] },
         idling := true },
       [{ tag := "*", command := "2",
          attributes := [Attr.atom "FETCH",
            Attr.list [Attr.atom "FLAGS", Attr.list [Attr.atom "\\Answered"]]] }]) :=
  ⟨fetch_coalescing_echo_suppression.1 [] []
      [{ command := "FETCH", uid := 7, modseq := 1 },
       { command := "FETCH", uid := 7, modseq := 2 }] 7,
   fetch_coalescing_echo_suppression.2.2⟩

/-! ### C1: a run of EXISTS updates coalesces into one EXISTS response -/

theorem walkStep_exists (id : String) (st : Walk) (u : Update)
    (hc : u.command = "EXISTS") (hig : u.ignore ≠ some id) :
    walkStep id [] st u =
      { sel :=
          { st.sel with
              uidList := st.sel.uidList ++ [u.uid]
              modifyIndex :=
                if st.sel.modifyIndex < u.modseq then u.modseq else st.sel.modifyIndex }
        writes := st.writes
        changed := false
        existsResponse := some (mkResp (st.sel.uidList.length + 1) "EXISTS" none) } := by
  by_cases hm : st.sel.modifyIndex < u.modseq <;>
    simp [walkStep, hc, hig, hm, formatResponse, strToUpper_EXISTS, mkResp]

theorem foldl_walk_exists (id : String) (l : List Update) (st : Walk)
    (h : ∀ u ∈ l, u.command = "EXISTS" ∧ u.ignore ≠ some id) (hne : l ≠ []) :
    l.foldl (walkStep id []) st =
      { sel :=
          { st.sel with
              uidList := st.sel.uidList ++ l.map (fun u => u.uid)
              modifyIndex := l.foldl (fun m u => if m < u.modseq then u.modseq else m)
                st.sel.modifyIndex }
        writes := st.writes
        changed := false
        existsResponse := some (mkResp (st.sel.uidList.length + l.length) "EXISTS" none) } := by
  induction l generalizing st with
  | nil => exact absurd rfl hne
  | cons u rest ih =>
    obtain ⟨hc, hig⟩ := h u (List.mem_cons_self u rest)
    have hrest : ∀ v ∈ rest, v.command = "EXISTS" ∧ v.ignore ≠ some id :=
      fun v hv => h v (List.mem_cons_of_mem u hv)
    rw [List.foldl_cons, walkStep_exists id st u hc hig]
    by_cases hr : rest = []
    · subst hr
      simp
    · rw [ih _ hrest hr]
      simp [Nat.add_comm, Nat.add_assoc, Nat.add_left_comm]

/-- Claim C1: a flush whose pending updates are all EXISTS records (none
suppressed by `ignore`) writes exactly one untagged EXISTS, whose sequence
number is the length of `uidList` after every EXISTS uid has been appended
in arrival order, and `uidList` ends extended by exactly those uids. -/
theorem all_exists_coalesced (conn : Conn) (sel : SelectedBox)
    (hsel : conn.selected = some sel) (hstate : conn.state = "Selected")
    (hne : sel.notifications ≠ [])
    (hall : ∀ u ∈ sel.notifications, u.command = "EXISTS" ∧ u.ignore ≠ some conn.id) :
    (emitNotifications conn).2 =
      [mkResp (sel.uidList.length + sel.notifications.length) "EXISTS" none] ∧
    uidListOf (emitNotifications conn).1 =
      sel.uidList ++ sel.notifications.map (fun u => u.uid) := by
  have hrem : sel.notifications.filter (fun u => u.command = "EXPUNGE") = [] := by
    rw [List.filter_eq_nil_iff]
    intro v hv
    simp [(hall v hv).1, ne_EXISTS_EXPUNGE]
  simp only [emitNotifications, hsel]
  rw [if_neg (by simp [hstate, hne])]
  rw [coalesce_no_fetch _ _ _ (fun v hv => by
    rw [(hall v hv).1]
    exact ne_EXISTS_FETCH)]
  simp only [hrem, List.map_nil, List.filter_nil]
  rw [foldl_walk_exists conn.id sel.notifications _ hall hne]
  simp [uidListOf]

/-- Concrete instance of `all_exists_coalesced`: `uid_list=[10,11]` with
pending `EXISTS(12), EXISTS(13), EXISTS(14)` — the only output is
`* 5 EXISTS` and `uid_list` ends as `[10,11,12,13,14]`. -/
theorem all_exists_coalesced_witness :
    ({ id := "S", state := "Selected",
       selected := some
         { mailbox := "INBOX", uidList := [10, 11], modifyIndex := 50,
           condstoreEnabled := false,
           notifications :=
             [{ command := "EXISTS", uid := 12, modseq := 100 },
              { command := "EXISTS", uid := 13, modseq := 101 },
              { command := "EXISTS", uid := 14, modseq := 102 }] },
       idling := true } : Conn).selected = some
         { mailbox := "INBOX", uidList := [10, 11], modifyIndex := 50,
           condstoreEnabled := false,
           notifications :=
             [{ command := "EXISTS", uid := 12, modseq := 100 },
              { command := "EXISTS", uid := 13, modseq := 101 },
              { command := "EXISTS", uid := 14, modseq := 102 }] } ∧
    ((emitNotifications
        { id := "S", state := "Selected",
          selected := some
            { mailbox := "INBOX", uidList := [10, 11], modifyIndex := 50,
              condstoreEnabled := false,
              notifications :=
                [{ command := "EXISTS", uid := 12, modseq := 100 },
                 { command := "EXISTS", uid := 13, modseq := 101 },
                 { command := "EXISTS", uid := 14, modseq := 102 }] },
          idling := true }).2 = [mkResp (2 + 3) "EXISTS" none] ∧
      uidListOf (emitNotifications
        { id := "S", state := "Selected",
          selected := some
            { mailbox := "INBOX", uidList := [10, 11], modifyIndex := 50,
              condstoreEnabled := false,
              notifications :=
                [{ command := "EXISTS", uid := 12, modseq := 100 },
                 { command := "EXISTS", uid := 13, modseq := 101 },
                 { command := "EXISTS", uid := 14, modseq := 102 }] },
          idling := true }).1 = [10, 11] ++ [12, 13, 14]) := by
  refine ⟨rfl, ?_⟩
  have h := all_exists_coalesced
    { id := "S", state := "Selected",
      selected := some
        { mailbox := "INBOX", uidList := [10, 11], modifyIndex := 50,
          condstoreEnabled := false,
          notifications :=
            [{ command := "EXISTS", uid := 12, modseq := 100 },
             { command := "EXISTS", uid := 13, modseq := 101 },
             { command := "EXISTS", uid := 14, modseq := 102 }] },
      idling := true }
    { mailbox := "INBOX", uidList := [10, 11], modifyIndex := 50,
      condstoreEnabled := false,
      notifications :=
        [{ command := "EXISTS", uid := 12, modseq := 100 },
         { command := "EXISTS", uid := 13, modseq := 101 },
         { command := "EXISTS", uid := 14, modseq := 102 }] }
    rfl rfl (by decide) (by decide)
  exact h

/-! ### C2: EXISTS then EXPUNGE of a pre-existing uid -/

theorem eraseIdx_append_left (l l' : List Nat) (i : Nat) (hi : i < l.length) :
    (l ++ l').eraseIdx i = l.eraseIdx i ++ l' := by
  induction l generalizing i with
  | nil => cases hi
  | cons x xs ih =>
    cases i with
    | zero => rfl
    | succ j =>
      have hj : j < xs.length := by
        simpa using hi
      simp only [List.cons_append, List.eraseIdx_cons_succ]
      rw [ih _ hj]

theorem walkStep_expunge (id : String) (st : Walk) (x : Update) (j : Nat)
    (hc : x.command = "EXPUNGE") (hig : x.ignore ≠ some id)
    (hidx : idxOf? x.uid st.sel.uidList = some j) :
    walkStep id [] st x =
      { sel :=
          { st.sel with
              uidList := st.sel.uidList.eraseIdx j
              modifyIndex :=
                if st.sel.modifyIndex < x.modseq then x.modseq else st.sel.modifyIndex }
        writes := st.writes ++ [mkResp (j + 1) "EXPUNGE" none]
        changed := true
        existsResponse := st.existsResponse } := by
  by_cases hm : st.sel.modifyIndex < x.modseq <;>
    simp [walkStep, hc, hig, hm, hidx, ne_EXPUNGE_EXISTS, formatResponse,
      strToUpper_EXPUNGE, writeMaybe]

/-- Claim C2: a flush of `EXISTS(u)` for a fresh uid `u` followed by
`EXPUNGE(v)` for a uid `v` at index `i` of `uidList` writes the EXPUNGE
at sequence `i+1` and then one synthesized untagged EXISTS whose count is
the resulting `uidList` length (= the original length); the synthesized
EXISTS bypasses `formatResponse` and does not mutate `uidList`, which
ends as the original with `v` removed and `u` appended. -/
theorem exists_then_expunge (conn : Conn) (sel : SelectedBox)
    (u v i m1 m2 : Nat)
    (hsel : conn.selected = some sel) (hstate : conn.state = "Selected")
    (hn : sel.notifications =
      [{ command := "EXISTS", uid := u, modseq := m1 },
       { command := "EXPUNGE", uid := v, modseq := m2 }])
    (hu : u ∉ sel.uidList) (hidx : idxOf? v sel.uidList = some i) :
    (emitNotifications conn).2 =
      [mkResp (i + 1) "EXPUNGE" none, synthExists sel.uidList.length] ∧
    uidListOf (emitNotifications conn).1 = sel.uidList.eraseIdx i ++ [u] := by
  have hv : v ∈ sel.uidList := idxOf?_mem v sel.uidList i hidx
  have hilt : i < sel.uidList.length := idxOf?_lt_length v sel.uidList i hidx
  have hvu : v ≠ u := fun hq => hu (hq ▸ hv)
  have hlen : (sel.uidList.eraseIdx i).length + 1 = sel.uidList.length :=
    List.length_eraseIdx_add_one hilt
  simp only [emitNotifications, hsel]
  rw [if_neg (by simp [hstate, hn])]
  rw [coalesce_no_fetch _ _ _ (by
    intro w hw
    rw [hn] at hw
    simp only [List.mem_cons, List.not_mem_nil, or_false] at hw
    rcases hw with hw | hw
    all_goals simp [hw, ne_EXISTS_FETCH, ne_EXPUNGE_FETCH])]
  simp [hn, hvu, ne_EXPUNGE_EXISTS, ne_EXISTS_EXPUNGE, walkStep_exists, walkStep_expunge,
    idxOf?_append_of_mem v sel.uidList [u] hv, hidx,
    eraseIdx_append_left sel.uidList [u] i hilt, hlen, uidListOf, synthExists]

/-- Concrete instance of `exists_then_expunge`: `uid_list=[10,11]` with
updates `EXISTS(12), EXPUNGE(10)` — output `* 1 EXPUNGE` then
`* 2 EXISTS`, and `uid_list` ends as `[11,12]`. -/
theorem exists_then_expunge_witness :
    ({ id := "S", state := "Selected",
       selected := some
         { mailbox := "INBOX", uidList := [10, 11], modifyIndex := 50,
           condstoreEnabled := false,
           notifications :=
             [{ command := "EXISTS", uid := 12, modseq := 100 },
              { command := "EXPUNGE", uid := 10, modseq := 101 }] },
       idling := true } : Conn).selected = some
         { mailbox := "INBOX", uidList := [10, 11], modifyIndex := 50,
           condstoreEnabled := false,
           notifications :=
             [{ command := "EXISTS", uid := 12, modseq := 100 },
              { command := "EXPUNGE", uid := 10, modseq := 101 }] } ∧
    12 ∉ [10, 11] ∧ idxOf? 10 [10, 11] = some 0 ∧
    ((emitNotifications
        { id := "S", state := "Selected",
          selected := some
            { mailbox := "INBOX", uidList := [10, 11], modifyIndex := 50,
              condstoreEnabled := false,
              notifications :=
                [{ command := "EXISTS", uid := 12, modseq := 100 },
                 { command := "EXPUNGE", uid := 10, modseq := 101 }] },
          idling := true }).2 =
      [mkResp (0 + 1) "EXPUNGE" none, synthExists ([10, 11] : List Nat).length] ∧
      uidListOf (emitNotifications
        { id := "S", state := "Selected",
          selected := some
            { mailbox := "INBOX", uidList := [10, 11], modifyIndex := 50,
              condstoreEnabled := false,
              notifications :=
                [{ command := "EXISTS", uid := 12, modseq := 100 },
                 { command := "EXPUNGE", uid := 10, modseq := 101 }] },
          idling := true }).1 = ([10, 11] : List Nat).eraseIdx 0 ++ [12]) := by
  refine ⟨rfl, by decide, by decide, ?_⟩
  exact exists_then_expunge
    { id := "S", state := "Selected",
      selected := some
        { mailbox := "INBOX", uidList := [10, 11], modifyIndex := 50,
          condstoreEnabled := false,
          notifications :=
            [{ command := "EXISTS", uid := 12, modseq := 100 },
             { command := "EXPUNGE", uid := 10, modseq := 101 }] },
      idling := true }
    { mailbox := "INBOX", uidList := [10, 11], modifyIndex := 50,
      condstoreEnabled := false,
      notifications :=
        [{ command := "EXISTS", uid := 12, modseq := 100 },
         { command := "EXPUNGE", uid := 10, modseq := 101 }] }
    12 10 0 100 101 rfl rfl rfl (by decide) (by decide)

/-! ### C5: records for uids absent from uidList are dropped -/

/-- Claim C5: `formatResponse` answers `false` (`none` here) for an
EXPUNGE or FETCH whose uid it cannot locate, leaving the snapshot
untouched; a flush whose single record is such an EXPUNGE or FETCH writes
nothing and leaves `uidList` unchanged; only EXISTS may name a uid not in
`uidList`, and it appends it. -/
theorem absent_uid_dropped (sel : SelectedBox) (u : Nat) (d : NotifyData)
    (hu : u ∉ sel.uidList) :
    formatResponse sel "EXPUNGE" u none = (none, sel) ∧
    formatResponse sel "FETCH" u (some d) = (none, sel) ∧
    (formatResponse sel "EXISTS" u none).2.uidList = sel.uidList ++ [u] ∧
    (∀ conn upd, conn.selected = some sel → conn.state = "Selected" →
      sel.notifications = [upd] → upd.uid = u →
      upd.command = "EXPUNGE" ∨ upd.command = "FETCH" →
      (emitNotifications conn).2 = [] ∧ uidListOf (emitNotifications conn).1 = sel.uidList) := by
  have hidx := idxOf?_eq_none u sel.uidList hu
  refine ⟨?_, ?_, ?_, ?_⟩
  · simp [formatResponse, strToUpper_EXPUNGE, ne_EXPUNGE_EXISTS, hidx]
  · simp [formatResponse, strToUpper_FETCH, ne_FETCH_EXISTS, hidx]
  · simp [formatResponse, strToUpper_EXISTS]
  · intro conn upd hsel hstate hn huid hcmd
    rcases hcmd with hc | hc
    · simp only [emitNotifications, hsel]
      rw [if_neg (by simp [hstate, hn])]
      rw [coalesce_no_fetch _ _ _ (by
        intro v hv
        rw [hn] at hv
        simp only [List.mem_cons, List.not_mem_nil, or_false] at hv
        rw [hv, hc]
        exact ne_EXPUNGE_FETCH)]
      by_cases hig : upd.ignore = some conn.id <;>
        by_cases hm : upd.modseq > sel.modifyIndex <;>
          simp [hn, walkStep, hc, hig, hm, huid, hidx, ne_EXPUNGE_EXISTS, uidListOf]
    · simp only [emitNotifications, hsel]
      rw [if_neg (by simp [hstate, hn])]
      by_cases hig : upd.ignore = some conn.id <;>
        by_cases hm : upd.modseq > sel.modifyIndex <;>
          simp [hn, coalesce, walkStep, hc, hig, hm, huid, hidx, ne_FETCH_EXISTS,
            ne_FETCH_EXPUNGE, formatResponse, strToUpper_FETCH, writeMaybe, uidListOf]

/-- Concrete instance of `absent_uid_dropped` at `uidList = [1, 2]`,
`uid = 5`. -/
theorem absent_uid_dropped_witness :
    5 ∉ ({ mailbox := "INBOX", uidList := [1, 2], modifyIndex := 0, condstoreEnabled := false,
           notifications := [] } : SelectedBox).uidList ∧
    (formatResponse
        { mailbox := "INBOX", uidList := [1, 2], modifyIndex := 0, condstoreEnabled := false,
          notifications := [] } "EXPUNGE" 5 none =
      (none,
       { mailbox := "INBOX", uidList := [1, 2], modifyIndex := 0, condstoreEnabled := false,
         notifications := [] }) ∧
    formatResponse
        { mailbox := "INBOX", uidList := [1, 2], modifyIndex := 0, condstoreEnabled := false,
          notifications := [] } "FETCH" 5 (some { flags := some ["\\Seen"], modseq := none }) =
      (none,
       { mailbox := "INBOX", uidList := [1, 2], modifyIndex := 0, condstoreEnabled := false,
         notifications := [] }) ∧
    (formatResponse
        { mailbox := "INBOX", uidList := [1, 2], modifyIndex := 0, condstoreEnabled := false,
          notifications := [] } "EXISTS" 5 none).2.uidList = [1, 2] ++ [5] ∧
    (∀ conn upd, conn.selected = some
        { mailbox := "INBOX", uidList := [1, 2], modifyIndex := 0, condstoreEnabled := false,
          notifications := [] } → conn.state = "Selected" →
      ({ mailbox := "INBOX", uidList := [1, 2], modifyIndex := 0, condstoreEnabled := false,
         notifications := [] } : SelectedBox).notifications = [upd] → upd.uid = 5 →
      upd.command = "EXPUNGE" ∨ upd.command = "FETCH" →
      (emitNotifications conn).2 = [] ∧
        uidListOf (emitNotifications conn).1 = [1, 2])) :=
  ⟨by decide,
   absent_uid_dropped
     { mailbox := "INBOX", uidList := [1, 2], modifyIndex := 0, condstoreEnabled := false,
       notifications := [] } 5 { flags := some ["\\Seen"], modseq := none } (by decide)⟩

/-! ### C6: modifyIndex is monotonically non-decreasing -/

theorem walkStep_modIndex_le (id : String) (skip : List Nat) (st : Walk) (u : Update) :
    st.sel.modifyIndex ≤ (walkStep id skip st u).sel.modifyIndex := by
  have h0 : st.sel.modifyIndex ≤
      (if u.modseq > st.sel.modifyIndex then { st.sel with modifyIndex := u.modseq }
       else st.sel).modifyIndex := by
    split
    · next hq => exact Nat.le_of_lt hq
    · exact Nat.le_refl _
  unfold walkStep
  by_cases h1 : u.uid ∈ skip
  · simp [h1]
  · simp only [h1, if_false, if_neg]
    by_cases h2 : u.ignore = some id
    · simpa [h2] using h0
    · simp only [h2, if_false]
      by_cases h3 : u.command = "EXISTS"
      · simpa [h3, formatResponse_modifyIndex] using h0
      · simp only [h3, if_false]
        by_cases h4 : u.command = "EXPUNGE"
        · simp only [h4, if_true]
          rcases hq : idxOf? u.uid
            (if u.modseq > st.sel.modifyIndex then { st.sel with modifyIndex := u.modseq }
             else st.sel).uidList with _ | i
          · simpa [hq] using h0
          · simpa [hq, formatResponse_modifyIndex] using h0
        · simp only [h4, if_false]
          by_cases h5 : u.command = "FETCH"
          · simpa [h5, formatResponse_modifyIndex] using h0
          · simpa [h5] using h0

theorem foldl_walk_modIndex_le (id : String) (skip : List Nat) (l : List Update) (st : Walk) :
    st.sel.modifyIndex ≤ (l.foldl (walkStep id skip) st).sel.modifyIndex := by
  induction l generalizing st with
  | nil => exact Nat.le_refl _
  | cons u rest ih =>
    exact Nat.le_trans (walkStep_modIndex_le id skip st u) (ih (walkStep id skip st u))

theorem emitNotifications_modIndex_le (conn : Conn) :
    modIndexOf conn ≤ modIndexOf (emitNotifications conn).1 := by
  rcases hsel : conn.selected with _ | sel
  · simp [emitNotifications, hsel]
  · simp only [emitNotifications, hsel]
    by_cases hg : conn.state ≠ "Selected" ∨ sel.notifications = []
    · rw [if_pos hg]
    · rw [if_neg hg]
      simp only [modIndexOf, hsel]
      exact foldl_walk_modIndex_le conn.id _ _
        { sel := sel, writes := [], changed := false, existsResponse := none }

theorem getUpdatesResult_modIndex_le (conn : Conn) (ld : ListenerData)
    (res : Except String (List Update)) :
    modIndexOf conn ≤ modIndexOf (getUpdatesResult conn ld res).1 := by
  by_cases h1 : ld.cleared
  · simp [getUpdatesResult, h1]
  · rcases res with e | updates
    · simp [getUpdatesResult, h1]
    · by_cases h2 : ¬conn.state = "Selected" ∨ conn.selected.isNone = true
      · simp only [getUpdatesResult, h1, Bool.false_eq_true, if_false]
        rw [if_pos h2]
      · have hA : conn.state = "Selected" := by
          by_contra hq
          exact h2 (Or.inl hq)
        rcases hsel : conn.selected with _ | sel
        · simp [getUpdatesResult, h1, hA, hsel]
        · rcases hlast : updates.getLast? with _ | last
          · simp [getUpdatesResult, h1, hA, hsel, hlast]
          · by_cases hid : conn.idling
            · by_cases hm : sel.modifyIndex < last.modseq <;>
                · simp [getUpdatesResult, h1, hA, hsel, hlast, hid, hm]
                  refine Nat.le_trans ?_ (emitNotifications_modIndex_le _)
                  simp [modIndexOf, hsel] <;> omega
            · by_cases hm : sel.modifyIndex < last.modseq <;>
                · simp [getUpdatesResult, h1, hA, hsel, hlast, hid, hm, modIndexOf] <;> omega

/-- Claim C6: `selected.modifyIndex` never decreases: the flush walk only
raises it (each step takes the max with the update's modseq), the
`getUpdates` completion only raises it (guarded by a strict comparison
with the last update's modseq), and `formatResponse` never touches it. -/
theorem modifyIndex_monotone :
    (∀ conn, modIndexOf conn ≤ modIndexOf (emitNotifications conn).1) ∧
    (∀ conn ld res, modIndexOf conn ≤ modIndexOf (getUpdatesResult conn ld res).1) ∧
    (∀ sel c u d, ((formatResponse sel c u d).2).modifyIndex = sel.modifyIndex) :=
  ⟨emitNotifications_modIndex_le, getUpdatesResult_modIndex_le, formatResponse_modifyIndex⟩

/-! ### C7: no dispatch while upgrading -/

/-- Claim C7: while the `upgrading` flag is true, `_onCommand` drops every
parsed frame without dispatching it or touching the pending command, and
(per the spec's upgrade contract) no inbound client bytes are consumed. -/
theorem upgrading_rejects_commands (conn : CmdConn) (frame : Frame)
    (consumed incoming : List Nat) (h : conn.upgrading = true) :
    onCommand conn frame = (conn, CmdAction.ignored) ∧
    ingestBytes conn.upgrading consumed incoming = consumed := by
  simp [onCommand, ingestBytes, h]

/-- Concrete instance of `upgrading_rejects_commands`. -/
theorem upgrading_rejects_commands_witness :
    ({ upgrading := true, currentCommand := none } : CmdConn).upgrading = true ∧
    (onCommand { upgrading := true, currentCommand := none } { payload := "a1 NOOP", final := true } =
        ({ upgrading := true, currentCommand := none }, CmdAction.ignored) ∧
      ingestBytes ({ upgrading := true, currentCommand := none } : CmdConn).upgrading [1, 2] [3] = [1, 2]) :=
  ⟨rfl, upgrading_rejects_commands { upgrading := true, currentCommand := none }
    { payload := "a1 NOOP", final := true } [1, 2] [3] rfl⟩

/-! ### C8: notifier error path -/

/-- Claim C8: when `getUpdates` completes with an error on a live listener,
the callback only releases the lock and returns — nothing is written, and
the connection (so `modifyIndex` and the pending queue) is untouched. -/
theorem getUpdates_error_noop (conn : Conn) (ld : ListenerData) (e : String)
    (h : ld.cleared = false) :
    getUpdatesResult conn ld (Except.error e) = (conn, { ld with lock := false }, []) := by
  simp [getUpdatesResult, h]

/-- Concrete instance of `getUpdates_error_noop`. -/
theorem getUpdates_error_noop_witness :
    ({ mailbox := "INBOX", lock := true, cleared := false } : ListenerData).cleared = false ∧
    getUpdatesResult { id := "S", state := "Selected", selected := none, idling := false }
        { mailbox := "INBOX", lock := true, cleared := false } (Except.error "db down") =
      ({ id := "S", state := "Selected", selected := none, idling := false },
       { mailbox := "INBOX", lock := false, cleared := false }, []) :=
  ⟨rfl, getUpdates_error_noop _ _ "db down" rfl⟩

/-! ### C9: close is idempotent -/

/-- Claim C9: `close()` twice leaves the connection exactly as `close()`
once — in particular `socket.end()` is not called again — and the
`_onClose` cleanup is idempotent, its body running at most once thanks to
the `_closed` guard. -/
theorem close_idempotent (c : CloseConn) :
    close (close c) = close c ∧
    (close (close c)).socket.endCalls = (close c).socket.endCalls ∧
    onClose (onClose c) = onClose c ∧
    (onClose (onClose c)).cleanupRuns ≤ c.cleanupRuns + 1 := by
  refine ⟨?_, ?_, ?_, ?_⟩
  · by_cases hd : c.socket.destroyed <;> by_cases hw : c.socket.writable <;>
      simp [close, socketEnd, hd, hw]
  · by_cases hd : c.socket.destroyed <;> by_cases hw : c.socket.writable <;>
      simp [close, socketEnd, hd, hw]
  · by_cases hc : c.closed <;> simp [onClose, hc]
  · by_cases hc : c.closed <;> simp [onClose, hc]

/-! ### C10: flush is a no-op outside a selected, nonempty-queue state -/

/-- Claim C10: `emitNotifications` writes nothing and changes no state
when the session is not Selected, no mailbox is selected, or the pending
queue is empty. -/
theorem emitNotifications_noop (conn : Conn)
    (h : conn.state ≠ "Selected" ∨ conn.selected = none ∨ notifsOf conn = []) :
    emitNotifications conn = (conn, []) := by
  rcases hsel : conn.selected with _ | sel
  · simp [emitNotifications, hsel]
  · have hcond : conn.state ≠ "Selected" ∨ sel.notifications = [] := by
      rcases h with h | h | h
      · exact Or.inl h
      · rw [hsel] at h; cases h
      · right; rw [notifsOf, hsel] at h; exact h
    simp only [emitNotifications, hsel]
    rw [if_pos hcond]

/-- Concrete instance of `emitNotifications_noop`. -/
theorem emitNotifications_noop_witness :
    (({ id := "S", state := "Authenticated", selected := none, idling := false } : Conn).state ≠
        "Selected" ∨
      ({ id := "S", state := "Authenticated", selected := none, idling := false } : Conn).selected =
        none ∨
      notifsOf { id := "S", state := "Authenticated", selected := none, idling := false } = []) ∧
    emitNotifications { id := "S", state := "Authenticated", selected := none, idling := false } =
      ({ id := "S", state := "Authenticated", selected := none, idling := false }, []) :=
  ⟨Or.inl (by decide), emitNotifications_noop _ (Or.inl (by decide))⟩

end WildDuck
